import Mathlib

/-!
Verification of the customer-management service (src/app.js): a shallow
embedding of its two Express handlers (`POST /upload`, `POST /register`) and
of the pure helpers they use, with theorems settling the specification's
claims about them.

Conventions of the embedding:
  * JS strings are `String`; a JS string method is embedded as a Lean
    function on `String.data` (the character list), e.g. `jsStartsWith`.
  * Each remote call (axios POST, Graph sendMail) is recorded in a trace;
    its outcome (resolve / reject) is supplied by an oracle structure, one
    field per call site, so theorems quantify over remote behaviour.
  * JS promise semantics are embedded faithfully: a `.catch` callback that
    `return`s only ends the callback, so execution continues after it; an
    awaited rejection with no `.catch` jumps to the enclosing `try`'s catch.
  * The Express response is "first write wins": `commitFirst` keeps the
    response that was already sent, later writes do not change it.
-/

/-- JS `s.startsWith(pre)`: `pre` is a prefix of `s`, on the character lists. -/
def jsStartsWith (s pre : String) : Bool :=
  pre.data.isPrefixOf s.data

/-- The double-quote character, U+0022 (written via its code point). -/
def quoteChar : Char := Char.ofNat 34

/-- The tail part of the URL regex: one or more characters, none of them a
space and none a double quote (the regex's negated character class). -/
def urlRestOk (cs : List Char) : Bool :=
  !cs.isEmpty && cs.all (fun c => !(c == ' ') && !(c == quoteChar))

/-- app.js line 24, `urlRegex.test`: the anchored JS regex
`(ftp|http|https)://` followed by one or more characters other than space
and double quote, matched against the whole string. The alternation plus
literal `://` is embedded as the three possible scheme prefixes. -/
def urlRegexTest (s : String) : Bool :=
  (jsStartsWith s "ftp://" && urlRestOk (s.data.drop 6)) ||
  (jsStartsWith s "http://" && urlRestOk (s.data.drop 7)) ||
  (jsStartsWith s "https://" && urlRestOk (s.data.drop 8))

/-- The claim's wording for C6: a string of the form `scheme://rest` with
scheme one of ftp, http, https, `rest` non-empty, and no space or double
quote anywhere in `rest`. -/
def IsSchemeUrl (s : String) : Prop :=
  ∃ scheme rest : String,
    (scheme = "ftp" ∨ scheme = "http" ∨ scheme = "https") ∧
    rest ≠ "" ∧
    (∀ c ∈ rest.data, c ≠ ' ' ∧ c ≠ quoteChar) ∧
    s = scheme ++ "://" ++ rest

/-- app.js lines 360-363: prepend `http://` unless the string already starts
with `http://` or `https://`. -/
def normalizeWebsite (companyWebsite : String) : String :=
  if !jsStartsWith companyWebsite "http://" && !jsStartsWith companyWebsite "https://" then
    "http://" ++ companyWebsite
  else
    companyWebsite

/-- app.js lines 366-381, `convertToE164` applied to a string: strip
non-digits (`replace(/\D/g, '')`), then the two length checks, else null. -/
def convertToE164 (phoneNumber : String) : Option String :=
  let digitsOnly : String := ⟨phoneNumber.data.filter Char.isDigit⟩
  if jsStartsWith digitsOnly "1" && digitsOnly.length == 11 then
    some ("+" ++ digitsOnly)
  else if digitsOnly.length == 10 then
    some ("+1" ++ digitsOnly)
  else
    none

/-- The claim's wording for C5 (`normalizePhone` of the spec): strip all
non-digit characters; 11 digits leading with 1 gets `+`; exactly 10 digits
gets `+1`; anything else null. Stated with the conditions in the claim's
order, to be compared with `convertToE164`. -/
def normalizePhoneSpec (raw : String) : Option String :=
  let d : String := ⟨raw.data.filter Char.isDigit⟩
  if d.length == 11 && jsStartsWith d "1" then
    some ("+" ++ d)
  else if d.length == 10 then
    some ("+1" ++ d)
  else
    none

/-- JS `s.toLowerCase()` on the character list (ASCII, which is all the
extensions compared against contain). -/
def jsToLowerCase (s : String) : String :=
  ⟨s.data.map Char.toLower⟩

/-- app.js lines 82-94, `getMimeType`: case-insensitive extension match
against the allow-list (the JS `switch` on the lowercased extension), null
otherwise. -/
def getMimeType (extension : String) : Option String :=
  let e := jsToLowerCase extension
  if e == ".png" then some "image/png"
  else if e == ".jpg" then some "image/jpeg"
  else if e == ".jpeg" then some "image/jpeg"
  else if e == ".pdf" then some "application/pdf"
  else none

/-- The suffix of a character list starting at its last dot, when any. -/
def extAfterDot : List Char → Option (List Char)
  | [] => none
  | c :: cs =>
    match extAfterDot cs with
    | some r => some r
    | none => if c == '.' then some (c :: cs) else none

/-- Node `path.extname` for a plain basename (no directory separators): the
suffix from the last dot, empty when there is no dot or the only dot leads
the name. -/
def extname (name : String) : String :=
  match extAfterDot name.data with
  | none => ""
  | some suffix => if suffix.length == name.data.length then "" else ⟨suffix⟩

-- Small helper lemmas about the embedded string operations.

theorem string_eq_of_data (a b : String) (h : a.data = b.data) : a = b := by
  cases a
  cases b
  exact congrArg String.mk h

theorem data_of_append (a b : String) : (a ++ b).data = a.data ++ b.data :=
  String.data_append a b

theorem jsStartsWith_decomp (s pre : String) (h : jsStartsWith s pre = true) :
    ∃ t : List Char, s.data = pre.data ++ t := by
  have hp : pre.data <+: s.data := List.isPrefixOf_iff_prefix.mp h
  obtain ⟨t, ht⟩ := hp
  exact ⟨t, ht.symm⟩

theorem urlRestOk_spec (cs : List Char) (h : urlRestOk cs = true) :
    cs ≠ [] ∧ ∀ c ∈ cs, c ≠ ' ' ∧ c ≠ quoteChar := by
  unfold urlRestOk at h
  rw [Bool.and_eq_true] at h
  obtain ⟨h1, h2⟩ := h
  constructor
  · intro hnil
    subst hnil
    simp at h1
  · intro c hc
    have := List.all_eq_true.mp h2 c hc
    rw [Bool.and_eq_true, Bool.not_eq_true', Bool.not_eq_true'] at this
    exact ⟨by simpa using this.1, by simpa using this.2⟩

theorem urlRestOk_of_spec (cs : List Char) (hne : cs ≠ [])
    (hc : ∀ c ∈ cs, c ≠ ' ' ∧ c ≠ quoteChar) : urlRestOk cs = true := by
  unfold urlRestOk
  rw [Bool.and_eq_true]
  constructor
  · simpa using hne
  · exact List.all_eq_true.mpr fun c hcc => by
      rw [Bool.and_eq_true, Bool.not_eq_true', Bool.not_eq_true']
      exact ⟨by simpa using (hc c hcc).1, by simpa using (hc c hcc).2⟩

theorem urlcase_forward (s pre scheme : String) (n : Nat)
    (hlen : pre.data.length = n)
    (hglue : scheme.data ++ "://".data = pre.data)
    (hsw : jsStartsWith s pre = true)
    (hrest : urlRestOk (s.data.drop n) = true) :
    ∃ rest : String, rest ≠ "" ∧ (∀ c ∈ rest.data, c ≠ ' ' ∧ c ≠ quoteChar) ∧
      s = scheme ++ "://" ++ rest := by
  obtain ⟨t, ht⟩ := jsStartsWith_decomp s pre hsw
  have hdrop : s.data.drop n = t := by
    rw [ht]
    exact List.drop_left' hlen
  rw [hdrop] at hrest
  obtain ⟨hne, hchars⟩ := urlRestOk_spec t hrest
  refine ⟨⟨t⟩, ?_, hchars, ?_⟩
  · intro hcon
    exact hne (by simpa using congrArg String.data hcon)
  · apply string_eq_of_data
    rw [ht, data_of_append, data_of_append, hglue]

theorem urlcase_backward (pre scheme rest : String) (n : Nat)
    (hlen : pre.data.length = n)
    (hglue : scheme.data ++ "://".data = pre.data)
    (hne : rest ≠ "") (hchars : ∀ c ∈ rest.data, c ≠ ' ' ∧ c ≠ quoteChar) :
    jsStartsWith (scheme ++ "://" ++ rest) pre = true ∧
    urlRestOk ((scheme ++ "://" ++ rest).data.drop n) = true := by
  have hdata : (scheme ++ "://" ++ rest).data = pre.data ++ rest.data := by
    rw [data_of_append, data_of_append, hglue]
  constructor
  · unfold jsStartsWith
    rw [hdata]
    exact List.isPrefixOf_iff_prefix.mpr (List.prefix_append pre.data rest.data)
  · rw [hdata, List.drop_left' hlen]
    apply urlRestOk_of_spec
    · intro hcon
      exact hne (string_eq_of_data rest "" (hcon.trans (by rfl)))
    · exact hchars

/-- C6: the `urlRegex` gate accepts exactly the scheme-prefixed strings with
a non-empty remainder free of spaces and double quotes — but "whitespace"
in the claim must be weakened to the space character: the regex's character
class excludes only the space and the double quote, so other whitespace
(tab, newline) is accepted. This is the amended, exact characterization. -/
theorem urlRegex_exact_characterization :
    ∀ s : String, urlRegexTest s = true ↔ IsSchemeUrl s := by
  intro s
  constructor
  · intro h
    unfold urlRegexTest at h
    rw [Bool.or_eq_true, Bool.or_eq_true, Bool.and_eq_true, Bool.and_eq_true,
      Bool.and_eq_true] at h
    rcases h with (⟨h1, h2⟩ | ⟨h1, h2⟩) | ⟨h1, h2⟩
    · obtain ⟨rest, hne, hchars, heq⟩ :=
        urlcase_forward s "ftp://" "ftp" 6 (by decide) (by decide) h1 h2
      exact ⟨"ftp", rest, Or.inl rfl, hne, hchars, heq⟩
    · obtain ⟨rest, hne, hchars, heq⟩ :=
        urlcase_forward s "http://" "http" 7 (by decide) (by decide) h1 h2
      exact ⟨"http", rest, Or.inr (Or.inl rfl), hne, hchars, heq⟩
    · obtain ⟨rest, hne, hchars, heq⟩ :=
        urlcase_forward s "https://" "https" 8 (by decide) (by decide) h1 h2
      exact ⟨"https", rest, Or.inr (Or.inr rfl), hne, hchars, heq⟩
  · rintro ⟨scheme, rest, hs, hne, hchars, rfl⟩
    unfold urlRegexTest
    rcases hs with rfl | rfl | rfl
    · obtain ⟨ha, hb⟩ := urlcase_backward "ftp://" "ftp" rest 6 (by decide) (by decide) hne hchars
      rw [ha, hb]
      simp
    · obtain ⟨ha, hb⟩ := urlcase_backward "http://" "http" rest 7 (by decide) (by decide) hne hchars
      rw [ha, hb]
      simp
    · obtain ⟨ha, hb⟩ := urlcase_backward "https://" "https" rest 8 (by decide) (by decide) hne hchars
      rw [ha, hb]
      simp

/-- C6 counterexample: the claim says every accepted string has no embedded
whitespace, but the regex accepts a URL containing a tab character. -/
theorem urlRegex_accepts_embedded_tab :
    urlRegexTest "http://a\tb" = true ∧
    Char.isWhitespace '\t' = true ∧
    '\t' ∈ ("http://a\tb" : String).data :=
  ⟨by decide, by decide, by decide⟩

/-- C7: `normalizeWebsite` leaves a string unchanged exactly when it starts
with `http://` or `https://`, and prepends `http://` otherwise; the claim's
"already has a scheme prefix" must be narrowed to those two prefixes (an
`ftp://` URL is changed, see the counterexample). Includes the claim's two
examples. -/
theorem normalizeWebsite_characterization :
    (∀ s : String,
      ((jsStartsWith s "http://" = true ∨ jsStartsWith s "https://" = true) →
        normalizeWebsite s = s) ∧
      (jsStartsWith s "http://" = false → jsStartsWith s "https://" = false →
        normalizeWebsite s = "http://" ++ s)) ∧
    normalizeWebsite "example.com" = "http://example.com" ∧
    normalizeWebsite "https://example.com" = "https://example.com" := by
  refine ⟨fun s => ⟨?_, ?_⟩, by decide, by decide⟩
  · intro h
    unfold normalizeWebsite
    rcases h with h | h <;> simp [h]
  · intro h1 h2
    unfold normalizeWebsite
    simp [h1, h2]

/-- C7 counterexample: `ftp://example.com` carries a scheme prefix (one the
sibling validator `urlRegex` itself recognizes) yet is not returned
unchanged — `http://` is prepended in front of it. -/
theorem normalizeWebsite_changes_ftp_scheme :
    jsStartsWith "ftp://example.com" "ftp://" = true ∧
    normalizeWebsite "ftp://example.com" = "http://ftp://example.com" ∧
    normalizeWebsite "ftp://example.com" ≠ "ftp://example.com" :=
  ⟨by decide, by decide, by decide⟩

/-- C5: the phone normalizer agrees everywhere with the claim's description
(strip non-digits; 11 digits leading with 1 get `+`; exactly 10 digits get
`+1`; otherwise null), and the claim's three examples hold. -/
theorem convertToE164_meets_spec :
    (∀ raw : String, convertToE164 raw = normalizePhoneSpec raw) ∧
    convertToE164 "555-123-4567" = some "+15551234567" ∧
    convertToE164 "15551234567" = some "+15551234567" ∧
    convertToE164 "123" = none := by
  refine ⟨fun raw => ?_, by decide, by decide, by decide⟩
  cases h1 : jsStartsWith ⟨raw.data.filter Char.isDigit⟩ "1" <;>
    cases h2 : (⟨raw.data.filter Char.isDigit⟩ : String).length == 11 <;>
      simp [convertToE164, normalizePhoneSpec, h1, h2]

/-! The upload workflow (app.js lines 100-348). -/

/-- The fixed success destination (app.js lines 343 and 580; the store
domain is redacted in the source and kept as written there). -/
def accountUrl : String := "https://[REDACTED].myshopify.com/account"

/-- The URL the invalid-file-type script assigns to `window.location.href`
(app.js line 146): written in the source with a duplicated scheme. -/
def invalidFileTypeUrl : String := "https://https://[REDACTED].myshopify.com/account"

/-- The user-facing message of app.js line 142. -/
def invalidFileTypeMessage : String := "Invalid file type: Please submit a JPG, PNG, or PDF."

/-- A single-quote character (code point 39), used when assembling the
inline script exactly as the source template does. -/
def jsQuote : String := String.singleton (Char.ofNat 39)

/-- The inline script of app.js line 146: an alert with the message, then
the assignment of the duplicated-scheme URL. -/
def invalidFileTypeScript : String :=
  "<script>alert(" ++ jsQuote ++ invalidFileTypeMessage ++ jsQuote ++
    "); window.location.href = " ++ jsQuote ++ invalidFileTypeUrl ++ jsQuote ++ ";</script>"

/-- The feedback cookie of app.js line 106: name, value, maxAge. -/
def uploadCookie : String × String × Nat :=
  ("uploadMessage", "Your file was uploaded successfully!", 3000)

/-- The multer file object: original client name and raw bytes. -/
structure FileUpload where
  originalname : String
  buffer : List Nat
deriving DecidableEq

/-- The parsed body and file of a `POST /upload` request (app.js line 103);
`file` is absent when the form carried no `tax_exempt_form` field. -/
structure UploadRequest where
  customerId : String
  customerCompany : String
  file : Option FileUpload
deriving DecidableEq

/-- Outcome of one awaited remote call: the decoded payload on resolve, or
a rejection (network error / thrown error). -/
inductive Remote (α : Type) where
  | ok (val : α)
  | err
deriving DecidableEq

/-- One staged upload target as returned by the staging mutation (app.js
lines 174-178): resource URL, post URL, and the ordered parameters. -/
structure StagedTarget where
  resourceUrl : String
  url : String
  parameters : List (String × String)
deriving DecidableEq

/-- One field of the multipart body POSTed to the staged target. -/
inductive FormField where
  | param (name value : String)
  | file (bytes : List Nat)
deriving DecidableEq

/-- app.js lines 187-195: a fresh form, each staged parameter appended in
the order received (`params.forEach`), then the file bytes appended last. -/
def buildUploadForm (params : List (String × String)) (bytes : List Nat) : List FormField :=
  (params.foldl (fun form p => form ++ [FormField.param p.1 p.2]) []) ++ [FormField.file bytes]

/-- The remote calls the upload handler can issue, in the order and with the
arguments the source builds them. -/
inductive ExtCall where
  | gqlStagedUploads (filename httpMethod mimeType resource : String)
  | awsPost (url : String) (form : List FormField)
  | gqlFileCreate (contentType originalSource : String)
  | gqlMetafieldsSet (key nspace ownerId mtype : String) (value : Option String)
  | graphSendMail (subject : String)
deriving DecidableEq

/-- The response the caller observes. -/
inductive HttpResponse where
  | sendHtml (body : String)
  | serverError
  | redirect (url : String)
deriving DecidableEq

/-- Outcomes of the five remote calls of the upload handler. `staged` and
`createFile` carry the decoded lists the handler indexes with `[0]`;
`createFile` list entries are each file's id field. -/
structure UploadOracle where
  staged : Remote (List StagedTarget)
  transfer : Remote Unit
  createFile : Remote (List (Option String))
  setMetafield : Remote Unit
  sendMail : Remote Unit

/-- Express responses are first-write-wins: once a response has been sent,
later writes do not change what the caller received. -/
def commitFirst : Option HttpResponse → HttpResponse → HttpResponse
  | some r, _ => r
  | none, r => r

/-- app.js lines 100-348 after the cookie: the body of the upload handler.
Returns the trace of issued remote calls and the response.

JS semantics kept: the transfer `.catch` (lines 203-206) and the
metafield-set `.catch` (lines 305-308) return from the callback only, so
on rejection the handler sends a 500 response and then continues; the
awaited staging, file-create and sendMail calls have no `.catch`, so their
rejection jumps to the outer catch (line 344). The truthiness test on the
metafield result (line 311) is true on both outcomes, because the catch
callback returns the (truthy) response object, so the mail step always
runs once a file id was read. Reading a member of `undefined` (missing
file, empty `stagedTargets`, empty `files`) throws to the outer catch. -/
def uploadSteps (req : UploadRequest) (o : UploadOracle) : List ExtCall × HttpResponse :=
  match req.file with
  | none => ([], HttpResponse.serverError)
  | some f =>
    let ext := extname f.originalname
    match getMimeType ext with
    | none => ([], HttpResponse.sendHtml invalidFileTypeScript)
    | some mime =>
      let stagedCall := ExtCall.gqlStagedUploads
        (req.customerCompany ++ " Tax Exempt Form" ++ ext) "POST" mime "FILE"
      match o.staged with
      | Remote.err => ([stagedCall], HttpResponse.serverError)
      | Remote.ok [] => ([stagedCall], HttpResponse.serverError)
      | Remote.ok (target :: _) =>
        let transferCall := ExtCall.awsPost target.url (buildUploadForm target.parameters f.buffer)
        let sentAfterTransfer : Option HttpResponse :=
          match o.transfer with
          | Remote.err => some HttpResponse.serverError
          | Remote.ok _ => none
        let createCall := ExtCall.gqlFileCreate
          (if mime == "application/pdf" then "FILE" else "IMAGE") target.resourceUrl
        match o.createFile with
        | Remote.err =>
          ([stagedCall, transferCall, createCall], commitFirst sentAfterTransfer HttpResponse.serverError)
        | Remote.ok [] =>
          ([stagedCall, transferCall, createCall], commitFirst sentAfterTransfer HttpResponse.serverError)
        | Remote.ok (fileId :: _) =>
          let metafieldCall := ExtCall.gqlMetafieldsSet "tax_exempt_form" "tax_exempt_forms"
            ("gid://shopify/Customer/" ++ req.customerId) "file_reference" fileId
          let sentAfterMetafield : Option HttpResponse :=
            match o.setMetafield with
            | Remote.err => some (commitFirst sentAfterTransfer HttpResponse.serverError)
            | Remote.ok _ => sentAfterTransfer
          let mailCall := ExtCall.graphSendMail
            ("New tax exempt document uploaded for " ++ req.customerCompany)
          match o.sendMail with
          | Remote.err =>
            ([stagedCall, transferCall, createCall, metafieldCall, mailCall],
              commitFirst sentAfterMetafield HttpResponse.serverError)
          | Remote.ok _ =>
            ([stagedCall, transferCall, createCall, metafieldCall, mailCall],
              commitFirst sentAfterMetafield (HttpResponse.redirect accountUrl))

/-- What the caller of `POST /upload` observes. -/
structure UploadResult where
  cookies : List (String × String × Nat)
  trace : List ExtCall
  response : HttpResponse
deriving DecidableEq

/-- The upload handler: the feedback cookie is set first (app.js line 106),
before validation and before any remote call, then the body runs. -/
def uploadHandler (req : UploadRequest) (o : UploadOracle) : UploadResult :=
  { cookies := [uploadCookie]
    trace := (uploadSteps req o).1
    response := (uploadSteps req o).2 }

/-- Appending one mapped element per step from the left is the map. -/
theorem foldl_push_eq_map {α β : Type} (f : α → β) :
    ∀ (l : List α) (acc : List β),
      List.foldl (fun acc2 p => acc2 ++ [f p]) acc l = acc ++ l.map f := by
  intro l
  induction l with
  | nil => intro acc; simp
  | cons a l ih => intro acc; simp [ih]

theorem buildUploadForm_eq (params : List (String × String)) (bytes : List Nat) :
    buildUploadForm params bytes =
      params.map (fun p => FormField.param p.1 p.2) ++ [FormField.file bytes] := by
  simp [buildUploadForm, foldl_push_eq_map]

/-- A `.pdf` upload used as concrete input by several checks. -/
def pdfFile : FileUpload := { originalname := "form.pdf", buffer := [37, 80, 68, 70] }

def pdfRequest : UploadRequest :=
  { customerId := "7042977136764", customerCompany := "Acme Corp", file := some pdfFile }

def stagedTargetEx : StagedTarget :=
  { resourceUrl := "https://storage.example/tmp/form.pdf"
    url := "https://storage.example/upload"
    parameters := [("key", "tmp/form.pdf"), ("policy", "abc"), ("signature", "def")] }

/-- All remote calls resolve except the physical transfer of the bytes. -/
def transferFailOracle : UploadOracle :=
  { staged := Remote.ok [stagedTargetEx]
    transfer := Remote.err
    createFile := Remote.ok [some "gid://shopify/GenericFile/1"]
    setMetafield := Remote.ok ()
    sendMail := Remote.ok () }

/-- All remote calls resolve except the staff-notification mail send. -/
def mailFailOracle : UploadOracle :=
  { staged := Remote.ok [stagedTargetEx]
    transfer := Remote.ok ()
    createFile := Remote.ok [some "gid://shopify/GenericFile/1"]
    setMetafield := Remote.ok ()
    sendMail := Remote.err }

/-- C2: when the physical POST of the bytes to the staged target fails, the
caller does get a 500 response — but, contrary to the claim, the handler
still issues the file-create call and the metafield-set call afterwards:
the `return` inside the transfer `.catch` only returns from the callback,
so execution continues past it. Evaluated at a concrete `.pdf` upload whose
transfer rejects. -/
theorem upload_transfer_fail_still_calls_downstream :
    (uploadHandler pdfRequest transferFailOracle).response = HttpResponse.serverError ∧
    ExtCall.gqlFileCreate "FILE" stagedTargetEx.resourceUrl ∈
      (uploadHandler pdfRequest transferFailOracle).trace ∧
    ExtCall.gqlMetafieldsSet "tax_exempt_form" "tax_exempt_forms"
        ("gid://shopify/Customer/" ++ pdfRequest.customerId) "file_reference"
        (some "gid://shopify/GenericFile/1") ∈
      (uploadHandler pdfRequest transferFailOracle).trace := by
  refine ⟨rfl, by decide, by decide⟩

/-- C3 (amended): when every step through the metafield link succeeds but
the staff-notification send then fails, the handler answers 500 — the send
is awaited inside the `try` with no catch of its own, so its failure does
affect the HTTP response (there is no redirect to the success page). -/
theorem upload_mail_fail_is_server_error :
    ∀ (req : UploadRequest) (o : UploadOracle) (f : FileUpload) (mime : String)
      (target : StagedTarget) (ts : List StagedTarget)
      (fid : Option String) (fids : List (Option String)),
      req.file = some f →
      getMimeType (extname f.originalname) = some mime →
      o.staged = Remote.ok (target :: ts) →
      o.transfer = Remote.ok () →
      o.createFile = Remote.ok (fid :: fids) →
      o.setMetafield = Remote.ok () →
      o.sendMail = Remote.err →
      (uploadHandler req o).response = HttpResponse.serverError := by
  intro req o f mime target ts fid fids h1 h2 h3 h4 h5 h6 h7
  simp [uploadHandler, uploadSteps, h1, h2, h3, h4, h5, h6, h7, commitFirst]

theorem upload_mail_fail_is_server_error_witness :
    (uploadHandler pdfRequest mailFailOracle).response = HttpResponse.serverError :=
  upload_mail_fail_is_server_error pdfRequest mailFailOracle pdfFile "application/pdf"
    stagedTargetEx [] (some "gid://shopify/GenericFile/1") [] rfl rfl rfl rfl rfl rfl rfl

/-- C3 counterexample: at a concrete upload where everything up to and
including the metafield link succeeds and only the notification send fails,
the response is the 500 error, not the success redirect the claim states. -/
theorem upload_mail_fail_counterexample :
    (uploadHandler pdfRequest mailFailOracle).response ≠ HttpResponse.redirect accountUrl ∧
    (uploadHandler pdfRequest mailFailOracle).response = HttpResponse.serverError := by
  refine ⟨by decide, rfl⟩

/-- C9: every `POST /upload` request — the rejected-extension pre-flight
included — gets the feedback cookie `uploadMessage` with the success text
and maxAge 3000, because the handler sets it before validating anything. -/
theorem upload_cookie_set_for_every_request :
    ∀ (req : UploadRequest) (o : UploadOracle),
      (uploadHandler req o).cookies =
        [("uploadMessage", "Your file was uploaded successfully!", 3000)] :=
  fun _ _ => rfl

/-- C8: whenever the file extension classifies and staging returned a
target, the multipart body POSTed to the staged URL is exactly the target
parameters, as form fields in the order supplied, followed by the raw file
bytes as the final field. The transfer is always the second issued call. -/
theorem upload_form_params_in_order :
    ∀ (req : UploadRequest) (o : UploadOracle) (f : FileUpload) (mime : String)
      (target : StagedTarget) (ts : List StagedTarget),
      req.file = some f →
      getMimeType (extname f.originalname) = some mime →
      o.staged = Remote.ok (target :: ts) →
      (uploadHandler req o).trace[1]? =
        some (ExtCall.awsPost target.url
          (target.parameters.map (fun p => FormField.param p.1 p.2) ++
            [FormField.file f.buffer])) := by
  intro req o f mime target ts h1 h2 h3
  simp only [uploadHandler, uploadSteps, h1, h2, h3, buildUploadForm_eq]
  cases o.createFile with
  | err => simp
  | ok files => cases files with
    | nil => simp
    | cons fid fids => cases o.sendMail <;> simp

theorem upload_form_params_in_order_witness :
    (uploadHandler pdfRequest mailFailOracle).trace[1]? =
      some (ExtCall.awsPost stagedTargetEx.url
        (stagedTargetEx.parameters.map (fun p => FormField.param p.1 p.2) ++
          [FormField.file pdfFile.buffer])) :=
  upload_form_params_in_order pdfRequest mailFailOracle pdfFile "application/pdf"
    stagedTargetEx [] rfl rfl rfl

/-- C10: a request whose extension does not classify is answered with the
inline script that alerts the invalid-file-type message and then assigns a
duplicated-scheme URL; no remote call is made, and that URL is the success
destination with one more `https://` in front, hence a different URL. -/
theorem upload_bad_extension_alert_and_duplicated_scheme :
    ∀ (req : UploadRequest) (o : UploadOracle) (f : FileUpload),
      req.file = some f →
      getMimeType (extname f.originalname) = none →
      (uploadHandler req o).response = HttpResponse.sendHtml invalidFileTypeScript ∧
      (uploadHandler req o).trace = [] ∧
      jsStartsWith invalidFileTypeUrl "https://https://" = true ∧
      invalidFileTypeUrl = "https://" ++ accountUrl ∧
      invalidFileTypeUrl ≠ accountUrl := by
  intro req o f h1 h2
  refine ⟨?_, ?_, by decide, by decide, by decide⟩ <;>
    simp [uploadHandler, uploadSteps, h1, h2]

def gifFile : FileUpload := { originalname := "form.gif", buffer := [71] }

def gifRequest : UploadRequest :=
  { customerId := "7042977136764", customerCompany := "Acme Corp", file := some gifFile }

theorem upload_bad_extension_alert_and_duplicated_scheme_witness :
    (uploadHandler gifRequest mailFailOracle).response = HttpResponse.sendHtml invalidFileTypeScript ∧
    (uploadHandler gifRequest mailFailOracle).trace = [] ∧
    jsStartsWith invalidFileTypeUrl "https://https://" = true ∧
    invalidFileTypeUrl = "https://" ++ accountUrl ∧
    invalidFileTypeUrl ≠ accountUrl :=
  upload_bad_extension_alert_and_duplicated_scheme gifRequest mailFailOracle gifFile rfl rfl

/-! The registration workflow (app.js lines 354-585). -/

/-- A JS value as far as the phone conversion is concerned: a string, or
the one-field wrapper object the call site at line 384 builds with the
shorthand `convertToE164(... phoneNumber ...)` around the field name. -/
inductive JsVal where
  | str (s : String)
  | objPhoneNumber (phoneNumber : String)
deriving DecidableEq

/-- A thrown JS error. -/
inductive JsError where
  | typeError
deriving DecidableEq

/-- `convertToE164` as invoked on an arbitrary JS value: its body first
calls `.replace` on its argument (line 368), which succeeds only on a
string; on the wrapper object there is no such method and a TypeError is
thrown to the enclosing try. -/
def convertToE164Call (arg : JsVal) : Except JsError (Option String) :=
  match arg with
  | JsVal.str s => Except.ok (convertToE164 s)
  | JsVal.objPhoneNumber _ => Except.error JsError.typeError

/-- The parsed body of a `POST /register` request (app.js line 357). -/
structure RegRequest where
  companyName : String
  firstName : String
  lastName : String
  email : String
  companyWebsite : String
  phoneNumber : String
deriving DecidableEq

/-- One address entry of the customer-create input (app.js lines 432-439). -/
structure CustomerAddress where
  company : String
  firstName : String
  lastName : String
  phone : Option String
deriving DecidableEq

/-- One metafield of the customer-create input. `nspace` and `mtype` stand
for the JS fields named namespace and type (Lean keywords). -/
structure Metafield where
  key : String
  nspace : String
  mtype : String
  value : Option String
deriving DecidableEq

/-- The `input` variable of the customer-create mutation (app.js
lines 426-455): null phone values stay null. -/
structure CustomerInput where
  email : String
  phone : Option String
  firstName : String
  lastName : String
  addresses : List CustomerAddress
  metafields : List Metafield
deriving DecidableEq

/-- app.js lines 426-464: the customer-create variables, the two fixed
metafields, and — only when the normalized website is truthy and passes
the URL regex — the pushed `company_website` metafield. -/
def createCustomerVariables (req : RegRequest) (phone : Option String) : CustomerInput :=
  let website := normalizeWebsite req.companyWebsite
  let base : List Metafield :=
    [ { key := "company", nspace := "customer-info",
        mtype := "single_line_text_field", value := some req.companyName }
    , { key := "phone_number", nspace := "customer-info",
        mtype := "single_line_text_field", value := phone } ]
  { email := req.email
    phone := phone
    firstName := req.firstName
    lastName := req.lastName
    addresses := [ { company := req.companyName, firstName := req.firstName,
                     lastName := req.lastName, phone := phone } ]
    metafields :=
      if !(website == "") && urlRegexTest website then
        base ++ [ { key := "company_website", nspace := "customer-info",
                    mtype := "url", value := some website } ]
      else
        base }

/-- The created customer as read back by the handler (only its id is used). -/
structure RegCustomer where
  id : String
deriving DecidableEq

/-- The decoded `customerCreate` payload (app.js lines 481-482, 575):
`customer` may be null, `userErrors` is the error list. -/
structure CustomerCreateResp where
  customer : Option RegCustomer
  userErrors : List (String × String)
deriving DecidableEq

/-- The remote calls the registration handler can issue. -/
inductive RegCall where
  | gqlCustomerCreate (input : CustomerInput)
  | gqlActivationUrl (customerId : String)
  | graphSendMail (subject toAddress : String)
deriving DecidableEq

/-- Outcomes of the registration handler's remote calls. -/
structure RegOracle where
  createCustomer : Remote CustomerCreateResp
  activationUrl : Remote String
  sendActivation : Remote Unit
  sendNotify : Remote Unit

/-- What the caller of `POST /register` observes. -/
structure RegResult where
  trace : List RegCall
  response : HttpResponse
deriving DecidableEq

/-- The staff recipient of the new-customer notification (app.js line 548). -/
def staffEmail : String := "rjarmon@gmail.com"

/-- app.js lines 386-584: the registration flow from the customer-create
mutation on, given the already-computed phone value.

JS semantics kept: the customer-create and activation-URL awaits have no
catch of their own, so their rejection reaches the outer catch (line 581)
and yields a 500; when `customer` is null the handler only logs the
`userErrors` and still falls through to the success redirect (line 580);
the two mail sends run inside their own try/catch (lines 562-572) that
only logs, so a failed activation send skips the staff notification but
never changes the response. -/
def registerWithPhone (req : RegRequest) (phone : Option String) (o : RegOracle) : RegResult :=
  let createCall := RegCall.gqlCustomerCreate (createCustomerVariables req phone)
  match o.createCustomer with
  | Remote.err => { trace := [createCall], response := HttpResponse.serverError }
  | Remote.ok resp =>
    match resp.customer with
    | none => { trace := [createCall], response := HttpResponse.redirect accountUrl }
    | some cust =>
      let actCall := RegCall.gqlActivationUrl cust.id
      match o.activationUrl with
      | Remote.err => { trace := [createCall, actCall], response := HttpResponse.serverError }
      | Remote.ok _ =>
        let mail1 := RegCall.graphSendMail "Account Activation" req.email
        match o.sendActivation with
        | Remote.err =>
          { trace := [createCall, actCall, mail1], response := HttpResponse.redirect accountUrl }
        | Remote.ok _ =>
          let mail2 := RegCall.graphSendMail ("New customer: " ++ req.companyName) staffEmail
          { trace := [createCall, actCall, mail1, mail2]
            response := HttpResponse.redirect accountUrl }

/-- The registration handler (app.js lines 354-585): normalizes the
website, then computes the phone by calling `convertToE164` with the
wrapper object `JsVal.objPhoneNumber` — exactly the argument the source
builds at line 384 — and proceeds only if that call returns; the TypeError
it actually throws lands in the outer catch, which answers 500 before any
remote call is made. -/
def registerHandler (req : RegRequest) (o : RegOracle) : RegResult :=
  match convertToE164Call (JsVal.objPhoneNumber req.phoneNumber) with
  | Except.error _ => { trace := [], response := HttpResponse.serverError }
  | Except.ok phone => registerWithPhone req phone o

/-- The registration body of the end-to-end scenario of the spec. -/
def acmeRequest : RegRequest :=
  { companyName := "Acme", firstName := "A", lastName := "B",
    email := "a@b.com", companyWebsite := "acme.com", phoneNumber := "5551234567" }

/-- C1: contrary to the claim, the scenario request produces no
customer-create mutation at all: the phone conversion is called with the
wrapper object instead of the raw string, throws a TypeError, and the
handler answers 500 with an empty call trace — for every remote
behaviour. Had the string been passed, `convertToE164` itself would give
the claimed phone (see the C5 theorem). -/
theorem register_acme_typeerror_500 :
    ∀ o : RegOracle,
      registerHandler acmeRequest o = { trace := [], response := HttpResponse.serverError } :=
  fun _ => rfl

/-- C4: whenever the customer-create mutation resolves with a null
customer (no id), the continuation of the registration flow issues no
activation-URL call and no mail send — the trace stays at the single
customer-create call — and the response is still the redirect to the fixed
success destination. -/
theorem register_no_id_skips_emails_and_redirects :
    ∀ (req : RegRequest) (phone : Option String) (o : RegOracle) (resp : CustomerCreateResp),
      o.createCustomer = Remote.ok resp →
      resp.customer = none →
      (registerWithPhone req phone o).trace =
        [RegCall.gqlCustomerCreate (createCustomerVariables req phone)] ∧
      (registerWithPhone req phone o).response = HttpResponse.redirect accountUrl := by
  intro req phone o resp h1 h2
  constructor <;> simp [registerWithPhone, h1, h2]

/-- A concrete customer-create payload with a null customer. -/
def noIdResp : CustomerCreateResp :=
  { customer := none, userErrors := [("email", "Email has already been taken")] }

def noIdOracle : RegOracle :=
  { createCustomer := Remote.ok noIdResp
    activationUrl := Remote.ok "https://activate.example"
    sendActivation := Remote.ok ()
    sendNotify := Remote.ok () }

theorem register_no_id_skips_emails_and_redirects_witness :
    (registerWithPhone acmeRequest (some "+15551234567") noIdOracle).trace =
      [RegCall.gqlCustomerCreate (createCustomerVariables acmeRequest (some "+15551234567"))] ∧
    (registerWithPhone acmeRequest (some "+15551234567") noIdOracle).response =
      HttpResponse.redirect accountUrl :=
  register_no_id_skips_emails_and_redirects acmeRequest (some "+15551234567") noIdOracle
    noIdResp rfl rfl
